import Mathlib

/-!
Shallow embedding of `src/main.py`, a FastAPI CRUD service over three
SQLite tables (users, items, orders) accessed through the `databases`
package.  Rows are modelled as Lean structures, the database as three
lists (insertion order = rowid order), and every route handler as a pure
function from a database state and its arguments to the new database
state and the HTTP-observable response.

Modelling conventions:
* SQLite rowid assignment for an insert is `1 + max existing id`.
* `datetime.utcnow()` values are abstract clock ticks (`Nat`); a handler
  that calls the clock takes one argument per call site, in source order.
* A Python `try: ... except Exception as e: raise HTTPException(...)`
  block is modelled by running the body in `Except Exc` and mapping any
  exception through the handler's except-clause.  FastAPI's
  `HTTPException` derives from `Exception`, so an `HTTPException(404)`
  raised inside the `try` block is caught by the `except Exception`
  clause like any other error; the embedding reflects this.
* `str(e)` for a caught exception is modelled by `strOfExc`; for
  `HTTPException` starlette renders `"{status_code}: {detail}"`.
* The raw statement text of `update_order` runs through the stages of
  the real pipeline in order: SQLAlchemy `text()` bind-parameter lexing
  (a missing bind value raises before execution), compile-time
  unescaping of `\:word` sequences, the sqlite3 driver's rejection of
  NUL characters, and finally SQLite's own parsing and execution.
* A route's `response_model=M` (for a pydantic model `M`) projects the
  returned mapping onto `M`'s fields in `M`'s declaration order;
  `response_model=None`, `dict` or `Dict[...]` returns the mapping as is.
-/

namespace App

/-- Row of the `users` table: columns `id, first_name, last_name, email,
password` (line 20-27 of `src/main.py`); the password column stores plain
text. -/
structure User where
  id : Int
  first_name : String
  last_name : String
  email : String
  password : String
  deriving Repr, DecidableEq

/-- Row of the `items` table: columns `id, name, description, price`
(lines 30-36). -/
structure Item where
  id : Int
  name : String
  description : String
  price : Float
  deriving Repr

/-- Row of the `orders` table: columns `id, user_id, item_id, order_date,
status` (lines 39-46); `order_date` is an abstract UTC timestamp. -/
structure Order where
  id : Int
  user_id : Int
  item_id : Int
  order_date : Nat
  status : String
  deriving Repr, DecidableEq

/-- The SQLite database `test.db`: the three tables, each a list of rows
in rowid order. -/
structure DB where
  users : List User
  items : List Item
  orders : List Order
  deriving Repr

/-- The empty database produced by `Base.metadata.create_all` on a fresh
file. -/
def emptyDB : DB := ⟨[], [], []⟩

/-- Request body of `POST /users/` and `PUT /users/{user_id}/` (pydantic
`UserCreate`, lines 54-58). -/
structure UserCreate where
  first_name : String
  last_name : String
  email : String
  password : String
  deriving Repr, DecidableEq

/-- Request body of `POST /items/` and `PUT /items/{item_id}/` (pydantic
`ItemCreate`, lines 60-63). -/
structure ItemCreate where
  name : String
  description : String
  price : Float
  deriving Repr

/-- Request body of `POST /orders/` (pydantic `OrderCreate`, lines
65-67). -/
structure OrderCreate where
  user_id : Int
  item_id : Int
  deriving Repr, DecidableEq

/-- A JSON scalar appearing in a response object. -/
inductive Value where
  | vInt : Int → Value
  | vStr : String → Value
  | vFloat : Float → Value
  | vTime : Nat → Value
  deriving Repr

/-- A JSON object (Python dict): association list of field names to
values, in insertion order. -/
abbrev Obj := List (String × Value)

/-- An exception reaching an `except Exception` clause: either a
`fastapi.HTTPException` (which derives from `Exception`) or a database /
statement error carrying its message. -/
inductive Exc where
  | httpExc : Nat → String → Exc
  | dbErr : String → Exc
  deriving Repr, DecidableEq

/-- Python `str(e)` of a caught exception: starlette's
`HTTPException.__str__` renders `"{status_code}: {detail}"`; a database
error renders its message. -/
def strOfExc : Exc → String
  | .httpExc code detail => toString code ++ ": " ++ detail
  | .dbErr msg => msg

/-- HTTP-observable outcome of a request: a 200 JSON body, or an error
status with the `detail` string of the raised `HTTPException`. -/
inductive HResp where
  | ok : Obj → HResp
  | err : Nat → String → HResp
  deriving Repr

/-- Except-clause shared by every handler other than `read_user`:
`raise HTTPException(status_code=500, detail=str(e))`. -/
def defaultExcept (e : Exc) : HResp := .err 500 (strOfExc e)

/-- Except-clause of `read_user` only (lines 109-111): logs the
exception and raises `HTTPException(500, detail="Internal Server
Error")`; the caught exception's message is not echoed. -/
def readUserExcept (_ : Exc) : HResp := .err 500 "Internal Server Error"

/-- Projection of a returned mapping onto a pydantic response model's
field list, in model declaration order (FastAPI `response_model`
filtering). -/
def filterModel (fields : List String) (o : Obj) : Obj :=
  fields.filterMap (fun f => (o.lookup f).map (fun v => (f, v)))

/-- Response shaping of a route: `some fields` for a pydantic
`response_model`, `none` for `response_model=None` / `dict` /
`Dict[...]` (no filtering). -/
def applyModel : Option (List String) → Obj → Obj
  | none, o => o
  | some fields, o => filterModel fields o

/-- Runs one route: the `try` body either returns a new database state
and a mapping (shaped by the response model), or raises, in which case
the database is unchanged and the except-clause produces the error
response. -/
def runRoute (model : Option (List String)) (db : DB)
    (body : Except Exc (DB × Obj)) (clause : Exc → HResp) : DB × HResp :=
  match body with
  | .ok (db2, o) => (db2, .ok (applyModel model o))
  | .error e => (db, clause e)

/-- Rowid SQLite assigns to a fresh insert: one more than the largest
existing rowid (1 on an empty table). -/
def nextId (ids : List Int) : Int := 1 + ids.foldr max 0

/-- Field map of a stored user row, in column order (what
`dict(user)` yields for a fetched row). -/
def userRowObj (u : User) : Obj :=
  [("id", .vInt u.id), ("first_name", .vStr u.first_name),
   ("last_name", .vStr u.last_name), ("email", .vStr u.email),
   ("password", .vStr u.password)]

/-- Field map of `user.dict()` for a `UserCreate` payload. -/
def userDictObj (u : UserCreate) : Obj :=
  [("first_name", .vStr u.first_name), ("last_name", .vStr u.last_name),
   ("email", .vStr u.email), ("password", .vStr u.password)]

/-- Field list of pydantic `UserCreate`, the `response_model` of
`PUT /users/{user_id}/`. -/
def userCreateFields : List String :=
  ["first_name", "last_name", "email", "password"]

/-- Try-block of `POST /users/` (lines 93-96): insert the payload and
return `{**user.dict(), "id": user_id}`.  The `users.email` column is
declared `unique=True`, so SQLite rejects an insert that duplicates a
stored email (an `IntegrityError` caught by the except-clause). -/
def create_user_body (db : DB) (user : UserCreate) : Except Exc (DB × Obj) :=
  if db.users.any (fun r => r.email == user.email) then
    .error (.dbErr "UNIQUE constraint failed: users.email")
  else
    let uid := nextId (db.users.map (fun r => r.id))
    let row : User := ⟨uid, user.first_name, user.last_name, user.email, user.password⟩
    .ok ({ db with users := db.users ++ [row] },
         userDictObj user ++ [("id", .vInt uid)])

/-- Handler of `POST /users/` (lines 91-98), `response_model=None`. -/
def create_user (db : DB) (user : UserCreate) : DB × HResp :=
  runRoute none db (create_user_body db user) defaultExcept

/-- Try-block of `GET /users/{user_id}/` (lines 102-108): fetch the row;
return `dict(user)` if found, otherwise raise `HTTPException(404, "User
not found")` — which the enclosing `except Exception` clause then
catches. -/
def read_user_body (db : DB) (user_id : Int) : Except Exc (DB × Obj) :=
  match db.users.find? (fun r => r.id == user_id) with
  | some u => .ok (db, userRowObj u)
  | none => .error (.httpExc 404 "User not found")

/-- Handler of `GET /users/{user_id}/` (lines 100-111),
`response_model=Dict[str, Union[int, str, float, bool, None]]` (no field
filtering); its except-clause replaces any exception, the 404 included,
with a 500 "Internal Server Error". -/
def read_user (db : DB) (user_id : Int) : DB × HResp :=
  runRoute none db (read_user_body db user_id) readUserExcept

/-- Try-block of `PUT /users/{user_id}/` (lines 115-118): issue the
update unconditionally (no existence check) and return
`{**user.dict(), "id": user_id}`.  The unique index on `users.email`
makes SQLite reject an update that would copy another stored row's
email onto the addressed row. -/
def update_user_body (db : DB) (user_id : Int) (user : UserCreate) :
    Except Exc (DB × Obj) :=
  if (db.users.any (fun r => r.id == user_id)) &&
     (db.users.any (fun r => r.id != user_id && r.email == user.email)) then
    .error (.dbErr "UNIQUE constraint failed: users.email")
  else
    .ok ({ db with users := db.users.map (fun r =>
            if r.id == user_id then
              { r with first_name := user.first_name,
                       last_name := user.last_name,
                       email := user.email,
                       password := user.password }
            else r) },
         userDictObj user ++ [("id", .vInt user_id)])

/-- Handler of `PUT /users/{user_id}/` (lines 113-120),
`response_model=UserCreate`: the response is filtered to the
`UserCreate` fields, so the `"id"` entry the function returns is dropped
from the HTTP response. -/
def update_user (db : DB) (user_id : Int) (user : UserCreate) : DB × HResp :=
  runRoute (some userCreateFields) db (update_user_body db user_id user) defaultExcept

/-- Try-block of `DELETE /users/{user_id}/` (lines 124-127): delete
unconditionally (no existence check) and return the fixed message. -/
def delete_user_body (db : DB) (user_id : Int) : Except Exc (DB × Obj) :=
  .ok ({ db with users := db.users.filter (fun r => r.id != user_id) },
       [("message", .vStr "User deleted")])

/-- Handler of `DELETE /users/{user_id}/` (lines 122-129),
`response_model=dict`. -/
def delete_user (db : DB) (user_id : Int) : DB × HResp :=
  runRoute none db (delete_user_body db user_id) defaultExcept

/-- Field map of a stored item row, in column order. -/
def itemRowObj (i : Item) : Obj :=
  [("id", .vInt i.id), ("name", .vStr i.name),
   ("description", .vStr i.description), ("price", .vFloat i.price)]

/-- Field map of `item.dict()` for an `ItemCreate` payload. -/
def itemDictObj (i : ItemCreate) : Obj :=
  [("name", .vStr i.name), ("description", .vStr i.description),
   ("price", .vFloat i.price)]

/-- Field list of pydantic `ItemRead` (lines 69-73), the
`response_model` of the item create/read/update routes. -/
def itemReadFields : List String := ["id", "name", "description", "price"]

/-- Try-block of `POST /items/` (lines 135-138): insert the payload and
return `{**item.dict(), "id": item_id}`. -/
def create_item_body (db : DB) (item : ItemCreate) : Except Exc (DB × Obj) :=
  let iid := nextId (db.items.map (fun r => r.id))
  let row : Item := ⟨iid, item.name, item.description, item.price⟩
  .ok ({ db with items := db.items ++ [row] },
       itemDictObj item ++ [("id", .vInt iid)])

/-- Handler of `POST /items/` (lines 133-140), `response_model=ItemRead`. -/
def create_item (db : DB) (item : ItemCreate) : DB × HResp :=
  runRoute (some itemReadFields) db (create_item_body db item) defaultExcept

/-- Try-block of `GET /items/{item_id}/` (lines 144-150): fetch the row;
return it if found, otherwise raise `HTTPException(404, "Item not
found")` — caught by the enclosing `except Exception` clause. -/
def read_item_body (db : DB) (item_id : Int) : Except Exc (DB × Obj) :=
  match db.items.find? (fun r => r.id == item_id) with
  | some i => .ok (db, itemRowObj i)
  | none => .error (.httpExc 404 "Item not found")

/-- Handler of `GET /items/{item_id}/` (lines 142-152),
`response_model=ItemRead`. -/
def read_item (db : DB) (item_id : Int) : DB × HResp :=
  runRoute (some itemReadFields) db (read_item_body db item_id) defaultExcept

/-- Try-block of `PUT /items/{item_id}/` (lines 156-159): issue the
update unconditionally and return `{**item.dict(), "id": item_id}`. -/
def update_item_body (db : DB) (item_id : Int) (item : ItemCreate) :
    Except Exc (DB × Obj) :=
  .ok ({ db with items := db.items.map (fun r =>
          if r.id == item_id then
            { r with name := item.name, description := item.description,
                     price := item.price }
          else r) },
       itemDictObj item ++ [("id", .vInt item_id)])

/-- Handler of `PUT /items/{item_id}/` (lines 154-161),
`response_model=ItemRead`. -/
def update_item (db : DB) (item_id : Int) (item : ItemCreate) : DB × HResp :=
  runRoute (some itemReadFields) db (update_item_body db item_id item) defaultExcept

/-- Try-block of `DELETE /items/{item_id}/` (lines 166-174): fetch the
row first and raise `HTTPException(404, "Item not found")` if absent
(caught by the enclosing `except Exception` clause); only when present,
delete it and return the fixed message. -/
def delete_item_body (db : DB) (item_id : Int) : Except Exc (DB × Obj) :=
  match db.items.find? (fun r => r.id == item_id) with
  | none => .error (.httpExc 404 "Item not found")
  | some _ =>
    .ok ({ db with items := db.items.filter (fun r => r.id != item_id) },
         [("message", .vStr "Item deleted successfully")])

/-- Handler of `DELETE /items/{item_id}/` (lines 163-176),
`response_model=dict`. -/
def delete_item (db : DB) (item_id : Int) : DB × HResp :=
  runRoute none db (delete_item_body db item_id) defaultExcept

/-- The single-quote character, code point 39, used by the raw SQL text
of `update_order`. -/
def squote : Char := Char.ofNat 39

/-- One-character string holding a single quote. -/
def sq : String := String.singleton squote

/-- Fuel-driven helper of `natDigits`; the fuel only bounds the
recursion depth and any fuel exceeding the input suffices. -/
def natDigitsAux : Nat → Nat → List Char
  | 0, _ => []
  | fuel + 1, n =>
    if n < 10 then [Char.ofNat (48 + n)]
    else natDigitsAux fuel (n / 10) ++ [Char.ofNat (48 + n % 10)]

/-- Decimal digit characters of a natural number, most significant
first (the digits Python `str` prints for it). -/
def natDigits (n : Nat) : List Char := natDigitsAux (n + 1) n

/-- Characters Python `str` prints for an integer: an optional minus
sign followed by the decimal digits. -/
def intChars (i : Int) : List Char :=
  if i < 0 then Char.ofNat 45 :: natDigits i.natAbs else natDigits i.natAbs

/-- The raw statement text built by line 211 of `src/main.py`:
`f"UPDATE orders SET status='{status}' WHERE id={order_id}"` — the
status string and the id are interpolated directly into the SQL text. -/
def updateOrderSql (status : String) (order_id : Int) : String :=
  "UPDATE orders SET status=" ++ sq ++ status ++ sq ++ " WHERE id=" ++
    String.mk (intChars order_id)

/-- Drops an expected sequence of characters from the head of the input,
returning the remainder, or `none` when the input does not start with
that sequence. -/
def stripStr : List Char → List Char → Option (List Char)
  | [], rest => some rest
  | _ :: _, [] => none
  | p :: ps, c :: cs => if p = c then stripStr ps cs else none

/-- SQLite tokenization of the body of a single-quoted string literal:
consumes characters until the closing quote, with `''` standing for one
literal quote; returns the literal's characters and the remainder after
the closing quote, or `none` when the literal is unterminated. -/
def scanLit : List Char → Option (List Char × List Char)
  | [] => none
  | c :: cs =>
    if c = squote then
      match cs with
      | [] => some ([], [])
      | c2 :: cs2 =>
        if c2 = squote then (scanLit cs2).map (fun p => (squote :: p.1, p.2))
        else some ([], cs)
    else (scanLit cs).map (fun p => (c :: p.1, p.2))

/-- Splits the longest run of leading decimal digits from the input. -/
def takeDigits : List Char → List Char × List Char
  | [] => ([], [])
  | c :: cs =>
    if c.isDigit then
      let p := takeDigits cs
      (c :: p.1, p.2)
    else ([], c :: cs)

/-- Numeric value of a run of decimal digit characters. -/
def digitsToNat (ds : List Char) : Nat :=
  ds.foldl (fun a c => 10 * a + (c.toNat - 48)) 0

/-- The colon character, which starts a SQLAlchemy bind parameter. -/
def colonChar : Char := ':'

/-- The backslash character, code point 92, SQLAlchemy's bind-parameter
escape. -/
def bslash : Char := Char.ofNat 92

/-- The NUL character, which the sqlite3 driver rejects in statement
text. -/
def nulChar : Char := Char.ofNat 0

/-- A character of the `\w` class of SQLAlchemy's bind-parameter
regexes, modelled over the ASCII range this service's statements use:
letters, digits and underscore. -/
def isWordChar (c : Char) : Bool := c.isAlphanum || c == '_'

/-- Splits the longest run of leading word characters from the input. -/
def takeWord : List Char → List Char × List Char
  | [] => ([], [])
  | c :: cs =>
    if isWordChar c then
      let p := takeWord cs
      (c :: p.1, p.2)
    else ([], c :: cs)

/-- The `(?<![:\w\x5c])` lookbehind of SQLAlchemy's bind-parameter
regex: a colon starts a parameter only if not preceded by a colon, a
word character or a backslash (`none` stands for the start of the
text). -/
def lookbehindOk : Option Char → Bool
  | none => true
  | some p => !(isWordChar p || p == colonChar || p == bslash)

/-- Name captured by `:(\w+)(?!:)` at a colon with valid lookbehind,
given the text after the colon: the maximal word run, except that a run
of length one followed by another colon is no match at all, and a
longer run followed by a colon backtracks to give up its last
character. -/
def bindNameAt (cs : List Char) : Option (List Char) :=
  match takeWord cs with
  | ([], _) => none
  | (w, after) =>
    match after with
    | a :: _ =>
      if a = colonChar then
        if w.length = 1 then none else some w.dropLast
      else some w
    | [] => some w

/-- First bind parameter SQLAlchemy's `text()` construct (line 211)
finds in the raw statement text, scanning with the regex
`(?<![:\w\x5c]):(\w+)(?!:)` — note that it lexes the *whole* text, a
colon inside a single-quoted SQL literal included.  `prev` is the
character preceding the current position. -/
def findBindParam : Option Char → List Char → Option (List Char)
  | _, [] => none
  | prev, c :: cs =>
    if (c == colonChar) && lookbehindOk prev then
      match bindNameAt cs with
      | some w => some w
      | none => findBindParam (some c) cs
    else findBindParam (some c) cs

/-- The `(?![:\w\$])` lookahead of SQLAlchemy's compile-time escape
regex, applied to the text following a word run (the compiler also
allows `$` in its word class; no statement this service builds contains
`$` outside the status string, and every theorem below excludes colons
from the status altogether). -/
def wordBoundary : List Char → Bool
  | [] => true
  | a :: _ => !(isWordChar a || a == colonChar || a == '$')

/-- Fuel-driven helper of `unescEsc`; each step consumes at least one
character, so any fuel at least the input length suffices. -/
def unescEscAux : Nat → List Char → List Char
  | 0, l => l
  | _ + 1, [] => []
  | fuel + 1, c :: cs =>
    if c = bslash then
      match cs with
      | c2 :: cs2 =>
        if c2 = colonChar then
          match takeWord cs2 with
          | ([], _) => c :: unescEscAux fuel cs
          | (w, after) =>
            if wordBoundary after then colonChar :: (w ++ unescEscAux fuel after)
            else c :: unescEscAux fuel cs
        else c :: unescEscAux fuel cs
      | [] => [c]
    else c :: unescEscAux fuel cs

/-- SQLAlchemy's compile-time unescaping of escaped bind parameters
(`BIND_PARAMS_ESC`, regex `\x5c(:\w+)(?![:\w\$])`): each `\:word` match
loses its backslash in the emitted SQL; everything else is emitted as
written. -/
def unescEsc (l : List Char) : List Char := unescEscAux l.length l

/-- Modelled SQLite parsing and execution of the emitted statement
text.  It interprets exactly the statement shapes the text of line 211
can take: the fixed head `UPDATE orders SET status='`, then a string
literal tokenized by `scanLit` (so the literal ends at the first quote
not doubled), then `' WHERE id='` and an integer, then at most
whitespace and a `--` comment.  A well-formed statement sets the status
of every row whose id matches; any other remainder is a statement
error, reported as a database exception. -/
def execSqliteUpdate (chars : List Char) (db : DB) : Except Exc DB :=
  match stripStr ("UPDATE orders SET status=".data ++ [squote]) chars with
  | none => .error (.dbErr "sqlite3 syntax error")
  | some afterHead =>
    match scanLit afterHead with
    | none => .error (.dbErr "sqlite3 unrecognized token")
    | some (lit, afterLit) =>
      match stripStr " WHERE id=".data afterLit with
      | none => .error (.dbErr "sqlite3 syntax error")
      | some afterEq =>
        let signed : Bool × List Char :=
          match afterEq with
          | c :: cs => if c = Char.ofNat 45 then (true, cs) else (false, afterEq)
          | [] => (false, [])
        let digs := takeDigits signed.2
        if digs.1 = [] then .error (.dbErr "sqlite3 syntax error")
        else
          let n : Int :=
            if signed.1 then -(digitsToNat digs.1 : Int) else (digitsToNat digs.1 : Int)
          let tail2 := digs.2.dropWhile (fun c => c = ' ')
          let tailOk : Bool :=
            match tail2 with
            | [] => true
            | c1 :: c2 :: _ => c1 = Char.ofNat 45 && c2 = Char.ofNat 45
            | _ :: _ => false
          if tailOk then
            .ok { db with orders := db.orders.map (fun r =>
                   if r.id == n then { r with status := String.mk lit } else r) }
          else .error (.dbErr "sqlite3 syntax error")

/-- Modelled execution pipeline of the raw statement `update_order`
submits (lines 211-212): `text(...)` + the `databases` SQLite backend.
First SQLAlchemy's `text()` lexes the raw text for bind parameters
(`findBindParam`); the handler supplies no values, so any parameter
found makes `construct_params()` raise
`InvalidRequestError("A value is required for bind parameter '...'")`
before anything reaches the database — caught by the handler's except
clause as a 500.  Otherwise the compiler emits the text with escaped
bind parameters unescaped (`unescEsc`); the sqlite3 driver then rejects
statement text containing a NUL character, and otherwise SQLite parses
and executes the emitted statement (`execSqliteUpdate`). -/
def execRawUpdate (sql : String) (db : DB) : Except Exc DB :=
  match findBindParam none sql.data with
  | some name =>
    .error (.dbErr ("A value is required for bind parameter " ++ sq ++
      String.mk name ++ sq))
  | none =>
    let emitted := unescEsc sql.data
    if emitted.any (fun c => c == nulChar) then
      .error (.dbErr "the query contains a null character")
    else execSqliteUpdate emitted db

/-- Field map of a stored order row, in column order. -/
def orderRowObj (o : Order) : Obj :=
  [("id", .vInt o.id), ("user_id", .vInt o.user_id),
   ("item_id", .vInt o.item_id), ("order_date", .vTime o.order_date),
   ("status", .vStr o.status)]

/-- Field list of pydantic `OrderResponse` / `OrderRead` (lines 75-88),
the `response_model` of the order create/read/update routes. -/
def orderResponseFields : List String :=
  ["id", "user_id", "item_id", "order_date", "status"]

/-- Try-block of `POST /orders/` (lines 182-185): insert
`{**order.dict(), order_date: datetime.utcnow(), status: "pending"}`
and return `{"id": order_id, **order.dict(), "order_date":
datetime.utcnow(), "status": "pending"}`.  The two `datetime.utcnow()`
call sites are distinct: `t1` is the value inserted (line 183), `t2`
the value placed in the response (line 185). -/
def create_order_body (db : DB) (order : OrderCreate) (t1 t2 : Nat) :
    Except Exc (DB × Obj) :=
  let oid := nextId (db.orders.map (fun r => r.id))
  let row : Order := ⟨oid, order.user_id, order.item_id, t1, "pending"⟩
  .ok ({ db with orders := db.orders ++ [row] },
       [("id", .vInt oid), ("user_id", .vInt order.user_id),
        ("item_id", .vInt order.item_id), ("order_date", .vTime t2),
        ("status", .vStr "pending")])

/-- Handler of `POST /orders/` (lines 180-187),
`response_model=OrderResponse`. -/
def create_order (db : DB) (order : OrderCreate) (t1 t2 : Nat) : DB × HResp :=
  runRoute (some orderResponseFields) db (create_order_body db order t1 t2) defaultExcept

/-- Try-block of `GET /orders/{order_id}/` (lines 191-198): fetch the
row; return it if found, otherwise raise `HTTPException(404, "Order not
found")` — caught by the enclosing `except Exception` clause. -/
def read_order_body (db : DB) (order_id : Int) : Except Exc (DB × Obj) :=
  match db.orders.find? (fun r => r.id == order_id) with
  | some o => .ok (db, orderRowObj o)
  | none => .error (.httpExc 404 "Order not found")

/-- Handler of `GET /orders/{order_id}/` (lines 189-200),
`response_model=OrderRead`. -/
def read_order (db : DB) (order_id : Int) : DB × HResp :=
  runRoute (some orderResponseFields) db (read_order_body db order_id) defaultExcept

/-- Try-block of `PUT /orders/{order_id}/` (lines 205-216): fetch the
row and raise `HTTPException(404, "Order not found")` if absent (caught
by the enclosing `except Exception` clause); then execute the raw
interpolated statement of line 211, and return
`{**existing_order, "status": status}` — the previously fetched row
with its status field replaced by the submitted string. -/
def update_order_body (db : DB) (order_id : Int) (status : String) :
    Except Exc (DB × Obj) :=
  match db.orders.find? (fun r => r.id == order_id) with
  | none => .error (.httpExc 404 "Order not found")
  | some existing_order =>
    match execRawUpdate (updateOrderSql status order_id) db with
    | .error e => .error e
    | .ok db2 =>
      .ok (db2,
           [("id", .vInt existing_order.id),
            ("user_id", .vInt existing_order.user_id),
            ("item_id", .vInt existing_order.item_id),
            ("order_date", .vTime existing_order.order_date),
            ("status", .vStr status)])

/-- Handler of `PUT /orders/{order_id}/` (lines 202-218),
`response_model=OrderResponse`; the `status` query parameter defaults to
`"pending"` when omitted. -/
def update_order (db : DB) (order_id : Int) (status : String) : DB × HResp :=
  runRoute (some orderResponseFields) db (update_order_body db order_id status) defaultExcept

/-- Call of `update_order` with the `status` parameter omitted: Python
fills in the declared default `"pending"` (line 203). -/
def update_order_default (db : DB) (order_id : Int) : DB × HResp :=
  update_order db order_id "pending"

/-- Try-block of `DELETE /orders/{order_id}/` (lines 222-232): fetch the
row first and raise `HTTPException(404, "Order not found")` if absent
(caught by the enclosing `except Exception` clause); only when present,
delete it and return the fixed message. -/
def delete_order_body (db : DB) (order_id : Int) : Except Exc (DB × Obj) :=
  match db.orders.find? (fun r => r.id == order_id) with
  | none => .error (.httpExc 404 "Order not found")
  | some _ =>
    .ok ({ db with orders := db.orders.filter (fun r => r.id != order_id) },
         [("message", .vStr "Order deleted successfully")])

/-- Handler of `DELETE /orders/{order_id}/` (lines 220-234),
`response_model=dict`. -/
def delete_order (db : DB) (order_id : Int) : DB × HResp :=
  runRoute none db (delete_order_body db order_id) defaultExcept

/-- Value of a field of a response body: `none` for an error response or
an absent key. -/
def respField (r : HResp) (k : String) : Option Value :=
  match r with
  | .ok o => o.lookup k
  | .err _ _ => none

/-! ### Helper lemmas -/

theorem stripStr_self (l r : List Char) : stripStr l (l ++ r) = some r := by
  induction l with
  | nil => rfl
  | cons c cs ih => simpa [stripStr] using ih

theorem scanLit_no_quote (s r : List Char) (hs : squote ∉ s)
    (hr : r.head? ≠ some squote) : scanLit (s ++ squote :: r) = some (s, r) := by
  induction s with
  | nil =>
    cases r with
    | nil => simp [scanLit]
    | cons c cs =>
      have hc : c ≠ squote := by
        intro h
        exact hr (by simp [h])
      simp [scanLit, hc]
  | cons a as ih =>
    have ha : a ≠ squote := by
      intro h
      exact hs (by simp [h])
    have hrec := ih (fun h => hs (List.mem_cons_of_mem _ h))
    rw [List.cons_append, scanLit.eq_def]
    simp [ha, hrec]

theorem takeDigits_all (l : List Char) (h : ∀ c ∈ l, c.isDigit = true) :
    takeDigits l = (l, []) := by
  induction l with
  | nil => rfl
  | cons c cs ih =>
    simp [takeDigits, h c (List.mem_cons_self c cs),
      ih (fun x hx => h x (List.mem_cons_of_mem _ hx))]

theorem digit_char_isDigit (d : Nat) (h : d < 10) :
    (Char.ofNat (48 + d)).isDigit = true := by
  interval_cases d <;> decide

theorem digit_char_toNat (d : Nat) (h : d < 10) :
    (Char.ofNat (48 + d)).toNat = 48 + d := by
  interval_cases d <;> decide

theorem natDigitsAux_digits (fuel : Nat) :
    ∀ n, n < fuel → ∀ c ∈ natDigitsAux fuel n, c.isDigit = true := by
  induction fuel with
  | zero => omega
  | succ fuel ih =>
    intro n hn
    rw [natDigitsAux]
    by_cases h : n < 10
    · simp only [h, ite_true]
      intro c hc
      rw [List.mem_singleton] at hc
      subst hc
      exact digit_char_isDigit n h
    · simp only [h, ite_false]
      intro c hc
      rcases List.mem_append.mp hc with h1 | h2
      · exact ih (n / 10) (by omega) c h1
      · rw [List.mem_singleton] at h2
        subst h2
        exact digit_char_isDigit (n % 10) (Nat.mod_lt n (by omega))

theorem natDigits_digits (n : Nat) : ∀ c ∈ natDigits n, c.isDigit = true :=
  natDigitsAux_digits (n + 1) n (Nat.lt_succ_self n)

theorem natDigits_ne_nil (n : Nat) : natDigits n ≠ [] := by
  rw [natDigits, natDigitsAux]
  by_cases h : n < 10 <;> simp [h]

theorem digitsToNat_append (a : List Char) (c : Char) :
    digitsToNat (a ++ [c]) = 10 * digitsToNat a + (c.toNat - 48) := by
  simp [digitsToNat, List.foldl_append]

theorem digitsToNat_natDigitsAux (fuel : Nat) :
    ∀ n, n < fuel → digitsToNat (natDigitsAux fuel n) = n := by
  induction fuel with
  | zero => omega
  | succ fuel ih =>
    intro n hn
    rw [natDigitsAux]
    by_cases h : n < 10
    · simp only [h, ite_true]
      simp [digitsToNat, digit_char_toNat n h]
    · simp only [h, ite_false]
      rw [digitsToNat_append, ih (n / 10) (by omega),
        digit_char_toNat (n % 10) (Nat.mod_lt n (by omega))]
      omega

theorem digitsToNat_natDigits (n : Nat) : digitsToNat (natDigits n) = n :=
  digitsToNat_natDigitsAux (n + 1) n (Nat.lt_succ_self n)

theorem isDigit_ne_minus (c : Char) (h : c.isDigit = true) : c ≠ Char.ofNat 45 := by
  intro e
  subst e
  exact absurd h (by decide)

theorem le_foldr_max (l : List Int) (x : Int) (h : x ∈ l) :
    x ≤ l.foldr max 0 := by
  induction l with
  | nil => cases h
  | cons a as ih =>
    rcases List.mem_cons.mp h with rfl | hm
    · exact le_max_left _ _
    · exact le_trans (ih hm) (le_max_right _ _)

theorem find?_append_none {α : Type} (p : α → Bool) (l1 l2 : List α)
    (h : ∀ a ∈ l1, p a = false) : (l1 ++ l2).find? p = l2.find? p := by
  induction l1 with
  | nil => rfl
  | cons a as ih =>
    rw [List.cons_append, List.find?_cons_of_neg _ (by simp [h a (List.mem_cons_self a as)])]
    exact ih (fun x hx => h x (List.mem_cons_of_mem _ hx))

theorem find?_append_singleton {α : Type} (p : α → Bool) (rows : List α) (x : α)
    (h : ∀ a ∈ rows, p a = false) (hx : p x = true) :
    (rows ++ [x]).find? p = some x := by
  rw [find?_append_none p rows [x] h, List.find?_cons_of_pos _ hx]

theorem id_fresh {α : Type} (f : α → Int) (rows : List α) :
    ∀ r ∈ rows, (f r == nextId (rows.map f)) = false := by
  intro r hr
  have h1 : f r ≤ (rows.map f).foldr max 0 :=
    le_foldr_max _ _ (List.mem_map_of_mem f hr)
  have h2 : f r ≠ nextId (rows.map f) := by
    unfold nextId
    omega
  simpa using h2

theorem data_append (a b : String) : (a ++ b).data = a.data ++ b.data := by
  cases a
  cases b
  rfl

theorem updateOrderSql_data (status : String) (oid : Int) :
    (updateOrderSql status oid).data =
      "UPDATE orders SET status=".data ++
        squote :: (status.data ++ squote :: (" WHERE id=".data ++ intChars oid)) := by
  simp [updateOrderSql, data_append, sq, String.singleton]

theorem isDigit_ne (c bad : Char) (hc : c.isDigit = true)
    (hbad : bad.isDigit = false) : ¬ c = bad := by
  intro e
  subst e
  rw [hc] at hbad
  cases hbad

theorem intChars_mem (i : Int) :
    ∀ c ∈ intChars i, c = Char.ofNat 45 ∨ c.isDigit = true := by
  intro c hc
  unfold intChars at hc
  by_cases h : i < 0
  · rw [if_pos h] at hc
    rcases List.mem_cons.mp hc with e | hm
    · exact Or.inl e
    · exact Or.inr (natDigits_digits _ c hm)
  · rw [if_neg h] at hc
    exact Or.inr (natDigits_digits _ c hc)

theorem updateOrderSql_chars (status : String) (oid : Int) (bad : Char)
    (h1 : ∀ c ∈ "UPDATE orders SET status=".data, ¬ c = bad)
    (h2 : ∀ c ∈ " WHERE id=".data, ¬ c = bad)
    (hsq : ¬ squote = bad)
    (hdig : ∀ c : Char, c.isDigit = true → ¬ c = bad)
    (hmin : ¬ Char.ofNat 45 = bad)
    (hs : ∀ c ∈ status.data, ¬ c = bad) :
    ∀ c ∈ (updateOrderSql status oid).data, ¬ c = bad := by
  rw [updateOrderSql_data]
  intro c hc
  rcases List.mem_append.mp hc with hA | hB
  · exact h1 c hA
  · rcases List.mem_cons.mp hB with rfl | hB2
    · exact hsq
    · rcases List.mem_append.mp hB2 with hC | hD
      · exact hs c hC
      · rcases List.mem_cons.mp hD with rfl | hD2
        · exact hsq
        · rcases List.mem_append.mp hD2 with hE | hF
          · exact h2 c hE
          · rcases intChars_mem oid c hF with rfl | hdigc
            · exact hmin
            · exact hdig c hdigc

theorem findBindParam_no_colon (l : List Char)
    (h : ∀ c ∈ l, ¬ c = colonChar) :
    ∀ prev, findBindParam prev l = none := by
  induction l with
  | nil => intro prev; rfl
  | cons c cs ih =>
    intro prev
    have hc : (c == colonChar) = false := by
      simpa using h c (List.mem_cons_self c cs)
    rw [findBindParam, hc]
    exact ih (fun x hx => h x (List.mem_cons_of_mem _ hx)) (some c)

theorem unescEscAux_no_colon (fuel : Nat) :
    ∀ l : List Char, (∀ c ∈ l, ¬ c = colonChar) → unescEscAux fuel l = l := by
  induction fuel with
  | zero => intro l _; rfl
  | succ fuel ih =>
    intro l h
    cases l with
    | nil => rfl
    | cons c cs =>
      have hcs : ∀ x ∈ cs, ¬ x = colonChar :=
        fun x hx => h x (List.mem_cons_of_mem _ hx)
      rw [unescEscAux.eq_def]
      dsimp only
      by_cases hb : c = bslash
      · rw [if_pos hb]
        cases cs with
        | nil => rfl
        | cons c2 cs2 =>
          have hc2 : ¬ c2 = colonChar := hcs c2 (List.mem_cons_self _ _)
          dsimp only
          rw [if_neg hc2, ih _ hcs]
      · rw [if_neg hb, ih _ hcs]

theorem unescEsc_no_colon (l : List Char) (h : ∀ c ∈ l, ¬ c = colonChar) :
    unescEsc l = l :=
  unescEscAux_no_colon l.length l h

theorem any_bad_false (l : List Char) (bad : Char)
    (h : ∀ c ∈ l, ¬ c = bad) : (l.any (fun c => c == bad)) = false := by
  rw [List.any_eq_false]
  intro x hx
  simpa using h x hx

theorem execRawUpdate_quote_free (db : DB) (status : String) (oid : Int)
    (hq : squote ∉ status.data) (hcol : colonChar ∉ status.data)
    (hnul : nulChar ∉ status.data) :
    execRawUpdate (updateOrderSql status oid) db =
      .ok { db with orders := db.orders.map (fun r =>
        if r.id == oid then { r with status := status } else r) } := by
  have hcolAll : ∀ c ∈ (updateOrderSql status oid).data, ¬ c = colonChar :=
    updateOrderSql_chars status oid colonChar (by decide) (by decide) (by decide)
      (fun c hc => isDigit_ne c colonChar hc (by decide)) (by decide)
      (fun c hc e => hcol (e ▸ hc))
  have hnulAll : ∀ c ∈ (updateOrderSql status oid).data, ¬ c = nulChar :=
    updateOrderSql_chars status oid nulChar (by decide) (by decide) (by decide)
      (fun c hc => isDigit_ne c nulChar hc (by decide)) (by decide)
      (fun c hc e => hnul (e ▸ hc))
  have h1 := stripStr_self ("UPDATE orders SET status=".data ++ [squote])
      (status.data ++ squote :: (" WHERE id=".data ++ intChars oid))
  rw [List.append_assoc, List.singleton_append] at h1
  have h2 : (" WHERE id=".data ++ intChars oid).head? ≠ some squote := by
    have : (" WHERE id=".data ++ intChars oid).head? = some ' ' := rfl
    rw [this]
    decide
  unfold execRawUpdate
  rw [findBindParam_no_colon _ hcolAll none, unescEsc_no_colon _ hcolAll]
  dsimp only
  rw [any_bad_false _ _ hnulAll, if_neg (by decide : ¬ false = true)]
  unfold execSqliteUpdate
  rw [updateOrderSql_data, h1]
  dsimp only
  rw [scanLit_no_quote _ _ hq h2]
  dsimp only
  rw [stripStr_self]
  dsimp only
  by_cases hneg : oid < 0
  · have hic : intChars oid = Char.ofNat 45 :: natDigits oid.natAbs := by
      rw [intChars, if_pos hneg]
    rw [hic]
    dsimp only
    rw [if_pos rfl]
    obtain ⟨c, cs, hcons⟩ : ∃ c cs, natDigits oid.natAbs = c :: cs := by
      cases h : natDigits oid.natAbs with
      | nil => exact absurd h (natDigits_ne_nil _)
      | cons c cs => exact ⟨c, cs, rfl⟩
    rw [takeDigits_all _ (natDigits_digits oid.natAbs)]
    dsimp only
    rw [if_neg (natDigits_ne_nil oid.natAbs)]
    rw [digitsToNat_natDigits]
    have hoid : -((oid.natAbs : Nat) : Int) = oid := by omega
    simp only [if_pos rfl, List.dropWhile_nil, hoid]
    rfl
  · have hic : intChars oid = natDigits oid.natAbs := by
      rw [intChars, if_neg hneg]
    rw [hic]
    obtain ⟨c, cs, hcons⟩ : ∃ c cs, natDigits oid.natAbs = c :: cs := by
      cases h : natDigits oid.natAbs with
      | nil => exact absurd h (natDigits_ne_nil _)
      | cons c cs => exact ⟨c, cs, rfl⟩
    have hcd : c.isDigit = true := by
      have := natDigits_digits oid.natAbs c
      rw [hcons] at this
      exact this (List.mem_cons_self c cs)
    have hcm : ¬ (c = Char.ofNat 45) := isDigit_ne_minus c hcd
    rw [hcons]
    dsimp only
    rw [if_neg hcm, ← hcons]
    rw [takeDigits_all _ (natDigits_digits oid.natAbs)]
    dsimp only
    rw [if_neg (natDigits_ne_nil oid.natAbs)]
    rw [digitsToNat_natDigits]
    have hoid : ((oid.natAbs : Nat) : Int) = oid := by omega
    simp only [List.dropWhile_nil, hoid]
    rfl

theorem read_user_found (db : DB) (uid : Int) (u : User)
    (h : db.users.find? (fun r => r.id == uid) = some u) :
    read_user db uid = (db, .ok (userRowObj u)) := by
  unfold read_user runRoute read_user_body
  rw [h]
  rfl

theorem read_item_found (db : DB) (iid : Int) (i : Item)
    (h : db.items.find? (fun r => r.id == iid) = some i) :
    read_item db iid = (db, .ok (itemRowObj i)) := by
  unfold read_item runRoute read_item_body
  rw [h]
  rfl

theorem read_order_found (db : DB) (oid : Int) (o : Order)
    (h : db.orders.find? (fun r => r.id == oid) = some o) :
    read_order db oid = (db, .ok (orderRowObj o)) := by
  unfold read_order runRoute read_order_body
  rw [h]
  rfl

/-! ### Claims -/

/-- C1: the claim says a Read with an id matching no stored row returns
the not-found condition (404) for every entity.  The code is wrong: each
read handler raises `HTTPException(404, ...)` inside its `try` block, and
since `HTTPException` derives from `Exception`, the handler's own
`except Exception` clause catches it and raises a 500 instead — with the
fixed detail "Internal Server Error" for `read_user`, and with
`str(e) = "404: ..."` for `read_item` and `read_order`.  This theorem
evaluates the three read handlers at the failing input (id 1 on an empty
database): every one returns status 500, not 404. -/
theorem C1_read_absent_returns_500 :
    read_user emptyDB 1 = (emptyDB, .err 500 "Internal Server Error") ∧
    read_item emptyDB 1 = (emptyDB, .err 500 "404: Item not found") ∧
    read_order emptyDB 1 = (emptyDB, .err 500 "404: Order not found") :=
  ⟨rfl, rfl, rfl⟩

/-- C2 counterexample: the claim states that the values returned by a
create equal the values returned by the subsequent read for every
entity.  False for Orders: `create_order` inserts the first
`datetime.utcnow()` value (clock tick 0) but builds its response from a
second `datetime.utcnow()` call (clock tick 1), so the create response
reports order_date 1 while the read of the same order returns the
stored 0. -/
theorem C2_counterexample :
    respField (create_order emptyDB ⟨1, 1⟩ 0 1).2 "order_date" = some (.vTime 1) ∧
    respField (read_order (create_order emptyDB ⟨1, 1⟩ 0 1).1 1).2 "order_date" =
      some (.vTime 0) ∧
    (read_order (create_order emptyDB ⟨1, 1⟩ 0 1).1 1).2 ≠
      (create_order emptyDB ⟨1, 1⟩ 0 1).2 := by
  refine ⟨rfl, rfl, ?_⟩
  intro h
  have hdates : some (Value.vTime 0) = some (Value.vTime 1) := by
    calc some (Value.vTime 0)
        = respField (read_order (create_order emptyDB ⟨1, 1⟩ 0 1).1 1).2 "order_date" := rfl
      _ = respField (create_order emptyDB ⟨1, 1⟩ 0 1).2 "order_date" := by rw [h]
      _ = some (Value.vTime 1) := rfl
  simp at hdates

/-- C2 (amended): creating an entity and then reading it by the
returned id yields the stored record: the submitted fields plus the
server-assigned id (for Orders also the server-assigned status
"pending" and the order_date of the *first* clock call).  The create
and read responses agree exactly for Items, and for Users they hold the
same fields (as a permutation: the generic map of `read_user` lists
`id` first while the create response appends it last); for Orders every
field agrees except `order_date`, which the create response takes from
a second clock call (`t2`) while the read returns the stored first call
(`t1`).  The User conjunct assumes the create succeeded, i.e. the
submitted email does not collide with the unique index on a stored
row. -/
theorem C2_create_then_read_amended (db : DB) (u : UserCreate) (it : ItemCreate)
    (o : OrderCreate) (t1 t2 : Nat) (nu ni no : Int)
    (hnu : nu = nextId (db.users.map (fun r => r.id)))
    (hni : ni = nextId (db.items.map (fun r => r.id)))
    (hno : no = nextId (db.orders.map (fun r => r.id)))
    (hmail : db.users.any (fun r => r.email == u.email) = false) :
    (create_user db u =
      ({ db with users := db.users ++
          [⟨nu, u.first_name, u.last_name, u.email, u.password⟩] },
       .ok (userDictObj u ++ [("id", .vInt nu)])) ∧
     read_user (create_user db u).1 nu =
      ((create_user db u).1, .ok (("id", .vInt nu) :: userDictObj u)) ∧
     List.Perm (("id", Value.vInt nu) :: userDictObj u)
       (userDictObj u ++ [("id", Value.vInt nu)])) ∧
    (create_item db it =
      ({ db with items := db.items ++ [⟨ni, it.name, it.description, it.price⟩] },
       .ok [("id", .vInt ni), ("name", .vStr it.name),
            ("description", .vStr it.description), ("price", .vFloat it.price)]) ∧
     read_item (create_item db it).1 ni =
      ((create_item db it).1, (create_item db it).2)) ∧
    (create_order db o t1 t2 =
      ({ db with orders := db.orders ++ [⟨no, o.user_id, o.item_id, t1, "pending"⟩] },
       .ok [("id", .vInt no), ("user_id", .vInt o.user_id),
            ("item_id", .vInt o.item_id), ("order_date", .vTime t2),
            ("status", .vStr "pending")]) ∧
     read_order (create_order db o t1 t2).1 no =
      ((create_order db o t1 t2).1,
       .ok [("id", .vInt no), ("user_id", .vInt o.user_id),
            ("item_id", .vInt o.item_id), ("order_date", .vTime t1),
            ("status", .vStr "pending")])) := by
  subst hnu hni hno
  have hcreU : create_user db u =
      ({ db with users := db.users ++
          [⟨nextId (db.users.map (fun r => r.id)), u.first_name, u.last_name,
            u.email, u.password⟩] },
       .ok (userDictObj u ++
            [("id", .vInt (nextId (db.users.map (fun r => r.id))))])) := by
    unfold create_user runRoute create_user_body
    rw [hmail]
    rfl
  have hfindU : ((create_user db u).1).users.find?
      (fun r => r.id == nextId (db.users.map (fun r => r.id))) =
      some ⟨nextId (db.users.map (fun r => r.id)), u.first_name, u.last_name,
            u.email, u.password⟩ := by
    rw [hcreU]
    exact find?_append_singleton _ _ _ (id_fresh (fun r => r.id) db.users) (by simp)
  have hfindI : ((create_item db it).1).items.find?
      (fun r => r.id == nextId (db.items.map (fun r => r.id))) =
      some ⟨nextId (db.items.map (fun r => r.id)), it.name, it.description,
            it.price⟩ :=
    find?_append_singleton _ _ _ (id_fresh (fun r => r.id) db.items) (by simp)
  have hfindO : ((create_order db o t1 t2).1).orders.find?
      (fun r => r.id == nextId (db.orders.map (fun r => r.id))) =
      some ⟨nextId (db.orders.map (fun r => r.id)), o.user_id, o.item_id, t1,
            "pending"⟩ :=
    find?_append_singleton _ _ _ (id_fresh (fun r => r.id) db.orders) (by simp)
  refine ⟨⟨hcreU, ?_, (List.perm_append_singleton _ _).symm⟩, ⟨rfl, ?_⟩, ⟨rfl, ?_⟩⟩
  · exact read_user_found _ _ _ hfindU
  · exact read_item_found _ _ _ hfindI
  · exact read_order_found _ _ _ hfindO

/-- C2 witness: the spec's own scenario — POST /items/ with
name "Widget", description "A widget", price 9.99 on an empty database
assigns id 1, and GET /items/1/ then answers exactly what the create
answered. -/
theorem C2_witness :
    read_item (create_item emptyDB ⟨"Widget", "A widget", 9.99⟩).1 1 =
      ((create_item emptyDB ⟨"Widget", "A widget", 9.99⟩).1,
       (create_item emptyDB ⟨"Widget", "A widget", 9.99⟩).2) :=
  (C2_create_then_read_amended emptyDB ⟨"A", "B", "a@x", "p"⟩
    ⟨"Widget", "A widget", 9.99⟩ ⟨1, 1⟩ 0 1 1 1 1 rfl rfl rfl rfl).2.1.2

/-- C3 counterexample: the claim states that for every status string,
quote characters included, Order Update stores the string literally,
changes no row other than the addressed Order, and never causes a
statement error.  False at the classic injection payload
`x' WHERE id=2 --`: line 211 interpolates it into the statement text, so
addressing order 1 executes `UPDATE orders SET status='x' WHERE id=2 --…`,
which leaves order 1 untouched and overwrites order 2's status with "x",
while the 200 response claims order 1 now carries the full payload
string. -/
theorem C3_counterexample :
    ((update_order ⟨[], [], [⟨1, 1, 1, 5, "pending"⟩, ⟨2, 1, 1, 6, "pending"⟩]⟩
        1 ("x" ++ sq ++ " WHERE id=2 --")).1).orders.map (fun r => (r.id, r.status)) =
      [(1, "pending"), (2, "x")] ∧
    (update_order ⟨[], [], [⟨1, 1, 1, 5, "pending"⟩, ⟨2, 1, 1, 6, "pending"⟩]⟩
        1 ("x" ++ sq ++ " WHERE id=2 --")).2 =
      .ok [("id", .vInt 1), ("user_id", .vInt 1), ("item_id", .vInt 1),
           ("order_date", .vTime 5),
           ("status", .vStr ("x" ++ sq ++ " WHERE id=2 --"))] :=
  ⟨rfl, rfl⟩

/-- C3 (amended): for every existing Order and every status string that
contains no single-quote, no colon and no NUL character, Order Update
stores and returns the string literally, changes only rows whose id is
the addressed one, and causes no statement error.  The three exclusions
are each forced by the raw-text pipeline: a quote breaks out of the SQL
string literal (see the counterexample), a colon followed by a word
character is lexed by SQLAlchemy's `text()` as a bind parameter — even
inside the quoted literal — whose missing value raises before execution,
and a NUL is rejected by the sqlite3 driver; each error surfaces as a
500. -/
theorem C3_update_status_quote_free (db : DB) (oid : Int) (ex : Order)
    (status : String)
    (hfound : db.orders.find? (fun r => r.id == oid) = some ex)
    (hq : squote ∉ status.data) (hcol : colonChar ∉ status.data)
    (hnul : nulChar ∉ status.data) :
    update_order db oid status =
      ({ db with orders := db.orders.map (fun r =>
          if r.id == oid then { r with status := status } else r) },
       .ok [("id", .vInt ex.id), ("user_id", .vInt ex.user_id),
            ("item_id", .vInt ex.item_id), ("order_date", .vTime ex.order_date),
            ("status", .vStr status)]) := by
  unfold update_order runRoute update_order_body
  rw [hfound]
  dsimp only
  rw [execRawUpdate_quote_free db status oid hq hcol hnul]
  rfl

/-- C3 witness: updating the status of the stored order 1 to the
string "shipped" — free of quotes, colons and NULs — stores and returns
it literally. -/
theorem C3_witness :
    update_order ⟨[], [], [⟨1, 2, 3, 5, "pending"⟩]⟩ 1 "shipped" =
      (⟨[], [], [⟨1, 2, 3, 5, "shipped"⟩]⟩,
       .ok [("id", .vInt 1), ("user_id", .vInt 2), ("item_id", .vInt 3),
            ("order_date", .vTime 5), ("status", .vStr "shipped")]) :=
  C3_update_status_quote_free ⟨[], [], [⟨1, 2, 3, 5, "pending"⟩]⟩ 1
    ⟨1, 2, 3, 5, "pending"⟩ "shipped" rfl (by decide) (by decide) (by decide)

/-- C4: the claim says Order Update returns 404 when no Order with the
given id exists, and otherwise returns the previously fetched row with
its status replaced.  The success path matches the claim (second and
third conjuncts, the third with the status parameter left to its default
"pending"), but the absent-id path is a code bug: the
`HTTPException(404, "Order not found")` raised inside the `try` block is
caught by the handler's own `except Exception` clause and re-raised as a
500 whose detail is `str(e)` (first conjunct evaluates the handler at
the failing input). -/
theorem C4_update_order_observed :
    update_order emptyDB 1 "shipped" = (emptyDB, .err 500 "404: Order not found") ∧
    update_order ⟨[], [], [⟨1, 2, 3, 7, "pending"⟩]⟩ 1 "shipped" =
      (⟨[], [], [⟨1, 2, 3, 7, "shipped"⟩]⟩,
       .ok [("id", .vInt 1), ("user_id", .vInt 2), ("item_id", .vInt 3),
            ("order_date", .vTime 7), ("status", .vStr "shipped")]) ∧
    update_order_default ⟨[], [], [⟨1, 2, 3, 7, "done"⟩]⟩ 1 =
      (⟨[], [], [⟨1, 2, 3, 7, "pending"⟩]⟩,
       .ok [("id", .vInt 1), ("user_id", .vInt 2), ("item_id", .vInt 3),
            ("order_date", .vTime 7), ("status", .vStr "pending")]) :=
  ⟨rfl, rfl, rfl⟩

/-- C5: the claim says Item Delete checks existence first and fails with
404 when the Item is absent, and only otherwise deletes and returns the
fixed message.  The existence check and the success path match the claim
(second conjunct), but the absent-id path is a code bug: the
`HTTPException(404, "Item not found")` raised inside the `try` block is
caught by the handler's own `except Exception` clause and re-raised as a
500 with detail `str(e)` (first conjunct evaluates the handler at the
failing input). -/
theorem C5_delete_item_observed :
    delete_item emptyDB 1 = (emptyDB, .err 500 "404: Item not found") ∧
    delete_item ⟨[], [⟨1, "Widget", "A widget", 9.99⟩], []⟩ 1 =
      (⟨[], [], []⟩, .ok [("message", .vStr "Item deleted successfully")]) :=
  ⟨rfl, rfl⟩

/-- C6 counterexample: the claim says User Update returns the submitted
fields plus the given id.  False: the route declares
`response_model=UserCreate`, and `UserCreate` has no `id` field, so
FastAPI filters the `"id"` entry out of the handler's returned dict —
the HTTP response body of a `PUT /users/1/` carries no id at all. -/
theorem C6_counterexample :
    update_user emptyDB 1 ⟨"Ada", "L", "ada@x", "pw"⟩ =
      (emptyDB,
       .ok [("first_name", .vStr "Ada"), ("last_name", .vStr "L"),
            ("email", .vStr "ada@x"), ("password", .vStr "pw")]) ∧
    respField (update_user emptyDB 1 ⟨"Ada", "L", "ada@x", "pw"⟩).2 "id" = none :=
  ⟨rfl, rfl⟩

/-- C6 (amended): User Update issues the update unconditionally — no
existence check, every stored row with the given id is overwritten and
all other rows are untouched, whether or not any row matched — and the
handler computes the submitted fields plus the given id; but the route's
declared response model is the create shape, which omits `id`, so the
observable response holds exactly the submitted fields and no id.  The
hypothesis excludes the one failing case: copying onto the addressed row
an email the unique index already holds for a different row. -/
theorem C6_update_user_amended (db : DB) (uid : Int) (u : UserCreate)
    (hok : ((db.users.any (fun r => r.id == uid)) &&
            (db.users.any (fun r => r.id != uid && r.email == u.email))) = false) :
    update_user db uid u =
      ({ db with users := db.users.map (fun r =>
          if r.id == uid then
            { r with first_name := u.first_name, last_name := u.last_name,
                     email := u.email, password := u.password }
          else r) },
       .ok (userDictObj u)) ∧
    respField (update_user db uid u).2 "id" = none := by
  constructor
  · unfold update_user runRoute update_user_body
    rw [hok]
    rfl
  · unfold respField update_user runRoute update_user_body
    rw [hok]
    rfl

/-- C6 witness: updating user 1 on a database holding only user 1
succeeds, overwrites the row, and answers with the submitted fields and
no id entry. -/
theorem C6_witness :
    (update_user ⟨[⟨1, "A", "B", "a@x", "p1"⟩], [], []⟩ 1 ⟨"C", "D", "c@x", "p2"⟩ =
      (⟨[⟨1, "C", "D", "c@x", "p2"⟩], [], []⟩,
       .ok [("first_name", .vStr "C"), ("last_name", .vStr "D"),
            ("email", .vStr "c@x"), ("password", .vStr "p2")])) ∧
    respField (update_user ⟨[⟨1, "A", "B", "a@x", "p1"⟩], [], []⟩ 1
        ⟨"C", "D", "c@x", "p2"⟩).2 "id" = none :=
  C6_update_user_amended ⟨[⟨1, "A", "B", "a@x", "p1"⟩], [], []⟩ 1
    ⟨"C", "D", "c@x", "p2"⟩ (by decide)

/-- C7: deleting a User or deleting an Item leaves the orders table of
any database state unchanged — a hard delete with no cascade, including
when stored Orders reference the deleted row through `user_id` or
`item_id`. -/
theorem C7_delete_preserves_orders (db : DB) (uid iid : Int) :
    ((delete_user db uid).1).orders = db.orders ∧
    ((delete_item db iid).1).orders = db.orders := by
  constructor
  · rfl
  · unfold delete_item runRoute delete_item_body
    cases h : db.items.find? (fun r => r.id == iid) <;> rfl

/-- C8: `create_order` inserts the value of its first
`datetime.utcnow()` call (`t1`, line 183) but builds its response from a
second, separate `datetime.utcnow()` call (`t2`, line 185): the stored
row carries `t1`, the create response carries `t2`, and whenever the two
calls return different times the order_date a subsequent read reports
differs from the one the create response reported. -/
theorem C8_order_date_from_second_clock_call (db : DB) (o : OrderCreate)
    (t1 t2 : Nat) (no : Int)
    (hno : no = nextId (db.orders.map (fun r => r.id))) :
    ((create_order db o t1 t2).1).orders =
      db.orders ++ [⟨no, o.user_id, o.item_id, t1, "pending"⟩] ∧
    respField (create_order db o t1 t2).2 "order_date" = some (.vTime t2) ∧
    (t1 ≠ t2 →
      respField (read_order (create_order db o t1 t2).1 no).2 "order_date" ≠
        respField (create_order db o t1 t2).2 "order_date") := by
  subst hno
  refine ⟨rfl, rfl, ?_⟩
  intro hne
  have hfind : ((create_order db o t1 t2).1).orders.find?
      (fun r => r.id == nextId (db.orders.map (fun r => r.id))) =
      some ⟨nextId (db.orders.map (fun r => r.id)), o.user_id, o.item_id, t1,
            "pending"⟩ :=
    find?_append_singleton _ _ _ (id_fresh (fun r => r.id) db.orders) (by simp)
  rw [read_order_found _ _ _ hfind]
  intro h
  have hdates : some (Value.vTime t1) = some (Value.vTime t2) := h
  simp at hdates
  exact hne hdates

/-- C8 witness: with the first clock call at tick 0 and the second at
tick 1, the order_date read back differs from the order_date the create
response reported. -/
theorem C8_witness :
    respField (read_order (create_order emptyDB ⟨1, 1⟩ 0 1).1 1).2 "order_date" ≠
      respField (create_order emptyDB ⟨1, 1⟩ 0 1).2 "order_date" :=
  (C8_order_date_from_second_clock_call emptyDB ⟨1, 1⟩ 0 1 1 rfl).2.2 (by decide)

/-- C9: for every stored User row, `read_user` returns the full row as a
field map in column order, the `password` field included in plain text
exactly as stored. -/
theorem C9_read_user_returns_password (db : DB) (uid : Int) (u : User)
    (h : db.users.find? (fun r => r.id == uid) = some u) :
    read_user db uid =
      (db, .ok [("id", .vInt u.id), ("first_name", .vStr u.first_name),
                ("last_name", .vStr u.last_name), ("email", .vStr u.email),
                ("password", .vStr u.password)]) :=
  read_user_found db uid u h

/-- C9 witness: reading stored user 1 returns every column, the plain
text password "hunter2" included. -/
theorem C9_witness :
    read_user ⟨[⟨1, "Ada", "Lovelace", "ada@x", "hunter2"⟩], [], []⟩ 1 =
      (⟨[⟨1, "Ada", "Lovelace", "ada@x", "hunter2"⟩], [], []⟩,
       .ok [("id", .vInt 1), ("first_name", .vStr "Ada"),
            ("last_name", .vStr "Lovelace"), ("email", .vStr "ada@x"),
            ("password", .vStr "hunter2")]) :=
  C9_read_user_returns_password ⟨[⟨1, "Ada", "Lovelace", "ada@x", "hunter2"⟩], [], []⟩
    1 ⟨1, "Ada", "Lovelace", "ada@x", "hunter2"⟩ rfl

/-- C10: on a caught exception, `read_user`'s except-clause answers 500
with the fixed detail "Internal Server Error" (the exception is only
logged), while the except-clause shared by every other handler answers
500 with `str(e)`, the raw exception message, as detail.  The last two
conjuncts exhibit the contrast on the handlers themselves: the same
internal `HTTPException(404, ...)` surfaces with a fixed detail from
`read_user` and with the raw `str(e)` text from `read_item`. -/
theorem C10_error_detail_policy (e : Exc) :
    readUserExcept e = .err 500 "Internal Server Error" ∧
    defaultExcept e = .err 500 (strOfExc e) ∧
    read_user emptyDB 1 = (emptyDB, .err 500 "Internal Server Error") ∧
    read_item emptyDB 1 =
      (emptyDB, .err 500 (strOfExc (.httpExc 404 "Item not found"))) :=
  ⟨rfl, rfl, rfl, rfl⟩

end App
